import Mathlib

/-!
Shallow embedding of the lux CLI dispatcher (the repository's bin script) and
of the responder utility dataFor (src/packages/server/responder/utils/data-for.js).

Modelling conventions:
* JavaScript strings are Lean `String`; the values flowing through commander
  option parsing (absent / string / number / boolean) are `JSVal`.
* The process environment is an association list; `Reflect.set` is a cons
  (later bindings shadow earlier ones for lookup), `Reflect.has` is a lookup.
* A promise chain `a.then(() => b).then(() => c)` in which every step is a
  gateway call and each step ignores its predecessor's value is a list of
  calls executed in order by `runSeq`, short-circuiting at the first
  rejection; the final resolved value feeds `exit`.
* External handlers (the `../dist` module) are an oracle `World.behavior`;
  the working directory and its manifest are `World.cwd` / `World.manifest`.
* `process.exit` / `console.error` are reflected in the `ActionResult`
  record: `term` is the terminal outcome, `errorOutput` the error stream.
-/

namespace Lux

/-- Boolean check that the second character list is a prefix of the first
(JavaScript `String.prototype.startsWith` on the underlying characters). -/
def charsHasPrefix : List Char → List Char → Bool
  | _, [] => true
  | [], _ :: _ => false
  | a :: as, b :: bs => a == b && charsHasPrefix as bs

/-- Boolean substring containment (JavaScript `indexOf(pat) >= 0`). -/
def charsContains : List Char → List Char → Bool
  | [], pat => charsHasPrefix [] pat
  | a :: as, pat => charsHasPrefix (a :: as) pat || charsContains as pat

/-- Substring containment on strings. -/
def strContains (s pat : String) : Bool := charsContains s.data pat.data

/-- Prefix test on strings. -/
def strStarts (s pat : String) : Bool := charsHasPrefix s.data pat.data

/-- JavaScript values that flow through commander's option parsing:
`undefined`, a string, an integer (a parsed port), or a boolean. -/
inductive JSVal where
  | vundef : JSVal
  | vstr : String → JSVal
  | vnum : Int → JSVal
  | vbool : Bool → JSVal
deriving DecidableEq

/-- JavaScript truthiness of a `JSVal` (`if (val)`). -/
def jsTruthy : JSVal → Bool
  | JSVal.vundef => false
  | JSVal.vstr s => s != ""
  | JSVal.vnum n => n != 0
  | JSVal.vbool b => b

/-- String coercion applied when a value is written into `process.env`. -/
def jsToString : JSVal → String
  | JSVal.vundef => "undefined"
  | JSVal.vstr s => s
  | JSVal.vnum n => toString n
  | JSVal.vbool b => if b then "true" else "false"

/-- The argument `process.exit` receives in `exit(code)`:
`typeof code === 'number' ? code : 0`. -/
def jsExitCode : JSVal → Int
  | JSVal.vnum n => n
  | _ => 0

/-- The process environment table (`process.env`). -/
abbrev EnvMap := List (String × String)

/-- Reading a variable (`process.env[key]`). -/
def envLookup (e : EnvMap) (k : String) : Option String := e.lookup k

/-- `Reflect.has(process.env, key)`. -/
def envHas (e : EnvMap) (k : String) : Bool := (envLookup e k).isSome

/-- `Reflect.set(process.env, key, v)`: the new binding shadows any old one. -/
def envSet (e : EnvMap) (k v : String) : EnvMap := (k, v) :: e

/-- The environment resolver `setEnvVar(key, val, def)` of the bin script:
if `val` is truthy write it; else if the variable exists leave the table
alone; else write the default. -/
def setEnvVar (key : String) (val : JSVal) (dfl : JSVal) (e : EnvMap) : EnvMap :=
  if jsTruthy val then envSet e key (jsToString val)
  else if envHas e key then e
  else envSet e key (jsToString dfl)

/-- The state of the working directory's `package.json` as seen by
`require(path.join(cwd, 'package.json'))`: absent, unparsable, or parsed
with an optional `dependencies` object (an association list). -/
inductive Manifest where
  | missing : Manifest
  | malformed : Manifest
  | parsed : Option (List (String × String)) → Manifest
deriving DecidableEq

/-- `path.join('lux', 'test', 'test-app')` (posix separators). -/
def luxTestAppSegment : String := "lux/test/test-app"

/-- The project validator `inLuxProject()`: true when the working directory
path contains the test-fixture segment; otherwise true exactly when the
manifest parses and its `dependencies['lux-framework']` entry is truthy.
A missing manifest, a parse failure, or an absent `dependencies` object all
throw inside the `try` and are caught, yielding `false`. -/
def inLuxProject (cwd : String) (manifest : Manifest) : Bool :=
  if strContains cwd luxTestAppSegment then true
  else
    match manifest with
    | Manifest.missing => false
    | Manifest.malformed => false
    | Manifest.parsed none => false
    | Manifest.parsed (some deps) =>
      match deps.lookup ("lux-framework") with
      | none => false
      | some v => v != ""

/-- The alternatives `test|build|serve|console|generate|destroy` of the
gating regular expression in `exec`. -/
def projectScopedNames : List String :=
  [("test"), ("build"), ("serve"), ("console"), ("generate"), ("destroy")]

/-- The test `^(?:db:.+|test|build|serve|console|generate|destroy)$` applied
to the command name handed to `exec`.  (`.` excludes line terminators, which
cannot occur in any name the script passes, so `db:.+` is "db:" followed by
at least one character.) -/
def needsProject (cmd : String) : Bool :=
  (strStarts cmd ("db:") && cmd.length > 3) || projectScopedNames.contains cmd

/-- A pipeline failure: an `Error` with its message and its stack string
(frame lines are irrelevant to the dispatcher and abstracted). -/
structure Err where
  message : String
  stack : String
deriving DecidableEq

/-- The rejection `exec` produces for a project-scoped command outside a
lux application directory. -/
def luxDirError : Err :=
  { message := "Directory does not contain a valid Lux application."
    stack := "Error: Directory does not contain a valid Lux application." }

/-- Arguments forwarded through the gateway to a handler. -/
inductive CallArgs where
  | noArgs : CallArgs
  | buildArgs : Bool → CallArgs
  | serveArgs : Bool → Bool → Bool → CallArgs
  | createArgs : String → String → CallArgs
  | generateArgs : String → String → List String → CallArgs
  | destroyArgs : String → String → CallArgs
deriving DecidableEq

/-- One gateway invocation: the handler name and its arguments. -/
abbrev Call := String × CallArgs

/-- Everything outside the dispatcher: the working directory, its manifest,
and the behavior of the external handlers loaded from `../dist`. -/
structure World where
  cwd : String
  manifest : Manifest
  behavior : String → CallArgs → Except Err JSVal

/-- The observable history of one invocation: the gateway calls made
(`execs`) and the handlers actually run (`runs`). -/
structure Trace where
  execs : List Call
  runs : List Call
deriving DecidableEq

/-- The gateway `exec(cmd, ...args)`: project-scoped names are validated
first and rejected without touching the handler; otherwise the handler
runs and its result is returned. -/
def exec (w : World) (c : Call) (t : Trace) : Trace × Except Err JSVal :=
  let t1 : Trace := { t with execs := t.execs ++ [c] }
  if needsProject c.1 && !inLuxProject w.cwd w.manifest then
    (t1, Except.error luxDirError)
  else
    ({ t1 with runs := t1.runs ++ [c] }, w.behavior c.1 c.2)

/-- A promise chain of gateway calls, each `.then` ignoring its
predecessor's value: run the calls in order, stop at the first rejection,
and resolve with the last step's value (`acc` starts as the `undefined` of
`Promise.resolve()`). -/
def runSeq (w : World) : List Call → JSVal → Trace → Trace × Except Err JSVal
  | [], acc, t => (t, Except.ok acc)
  | c :: cs, _, t =>
    match exec w c t with
    | (t1, Except.ok v) => runSeq w cs v t1
    | (t1, Except.error e) => (t1, Except.error e)

/-- Run a pipeline from a fresh trace, seeded with `undefined`. -/
def runPipeline (w : World) (p : List Call) : Trace × Except Err JSVal :=
  runSeq w p JSVal.vundef { execs := [], runs := [] }

/-- How the invocation ends: an explicit `process.exit(code)`, or no exit
call at all (the process keeps running on the handler's event loop). -/
inductive Termination where
  | exited : Int → Termination
  | running : Termination
deriving DecidableEq

/-- The observable outcome of one command action. -/
structure ActionResult where
  env : EnvMap
  execs : List Call
  runs : List Call
  errorOutput : List String
  term : Termination
deriving DecidableEq

/-- `.then(exit).catch(rescue)`: on success `exit` terminates with the
numeric value of the final step (else 0); on failure `rescue` prints the
error's stack to the error stream and terminates with code 1. -/
def finishWithExit (env : EnvMap) (r : Trace × Except Err JSVal) : ActionResult :=
  match r with
  | (t, Except.ok v) =>
    { env := env, execs := t.execs, runs := t.runs
      errorOutput := [], term := Termination.exited (jsExitCode v) }
  | (t, Except.error e) =>
    { env := env, execs := t.execs, runs := t.runs
      errorOutput := [e.stack], term := Termination.exited 1 }

/-- `.catch(rescue)` with no `.then(exit)` (the serve command): on success
nothing terminates the process; on failure `rescue` prints the stack and
terminates with code 1. -/
def finishNoExit (env : EnvMap) (r : Trace × Except Err JSVal) : ActionResult :=
  match r with
  | (t, Except.ok _) =>
    { env := env, execs := t.execs, runs := t.runs
      errorOutput := [], term := Termination.running }
  | (t, Except.error e) =>
    { env := env, execs := t.execs, runs := t.runs
      errorOutput := [e.stack], term := Termination.exited 1 }

/-- The build step call `exec('build', useStrict)`. -/
def buildCall (strict : Bool) : Call := (("build"), CallArgs.buildArgs strict)

/-- `(skipBuild ? Promise.resolve() : exec('build', useStrict)).then(...)`:
the optional build step in front of the rest of a pipeline. -/
def gatedPipeline (skipBuild strict : Bool) (rest : List Call) : List Call :=
  (if skipBuild then [] else [buildCall strict]) ++ rest

/-- Parsed options `{ environment, useWeak, skipBuild }` shared by the
console command and every db command. -/
structure GatedFlags where
  environment : JSVal
  useWeak : Bool
  skipBuild : Bool
deriving DecidableEq

/-- Parsed options of the serve command. -/
structure ServeFlags where
  hot : Bool
  port : JSVal
  cluster : Bool
  environment : JSVal
  useWeak : Bool
  skipBuild : Bool
deriving DecidableEq

/-- Parsed options of the build command. -/
structure BuildFlags where
  environment : JSVal
  useWeak : Bool
deriving DecidableEq

/-- Pipeline of `n`/`new`: a single `create` call. -/
def newPipeline (name database : String) : List Call :=
  [(("create"), CallArgs.createArgs name database)]

/-- Action of `n`/`new`. -/
def newAction (w : World) (env : EnvMap) (name database : String) : ActionResult :=
  finishWithExit env (runPipeline w (newPipeline name database))

/-- Pipeline of `t`/`test`. -/
def testPipeline : List Call := [(("test"), CallArgs.noArgs)]

/-- Action of `t`/`test`. -/
def testAction (w : World) (env : EnvMap) : ActionResult :=
  finishWithExit env (runPipeline w testPipeline)

/-- Pipeline of `b`/`build`: one build call with `!useWeak`. -/
def buildPipeline (f : BuildFlags) : List Call := [buildCall (!f.useWeak)]

/-- Action of `b`/`build`. -/
def buildAction (w : World) (env : EnvMap) (f : BuildFlags) : ActionResult :=
  let env1 := setEnvVar ("NODE_ENV") f.environment (JSVal.vstr ("development")) env
  finishWithExit env1 (runPipeline w (buildPipeline f))

/-- Pipeline of `c`/`console`: optional build, then `repl`. -/
def consolePipeline (f : GatedFlags) : List Call :=
  gatedPipeline f.skipBuild (!f.useWeak) [(("repl"), CallArgs.noArgs)]

/-- Action of `c`/`console`: resolves NODE_ENV, sets the console marker
(`process.env.LUX_CONSOLE = true`), then runs the pipeline. -/
def consoleAction (w : World) (env : EnvMap) (f : GatedFlags) : ActionResult :=
  let env1 := setEnvVar ("NODE_ENV") f.environment (JSVal.vstr ("development")) env
  let env2 := envSet env1 ("LUX_CONSOLE") ("true")
  finishWithExit env2 (runPipeline w (consolePipeline f))

/-- Pipeline of `s`/`serve`: optional build, then the serve call with
`{ hot, cluster, useStrict }` where `useStrict = !useWeak`. -/
def servePipeline (f : ServeFlags) : List Call :=
  gatedPipeline f.skipBuild (!f.useWeak)
    [(("serve"), CallArgs.serveArgs f.hot f.cluster (!f.useWeak))]

/-- Action of `s`/`serve`: resolves PORT and NODE_ENV, runs the pipeline;
note the chain ends in `.catch(rescue)` with no `.then(exit)`. -/
def serveAction (w : World) (env : EnvMap) (f : ServeFlags) : ActionResult :=
  let env1 := setEnvVar ("PORT") f.port (JSVal.vnum 4000) env
  let env2 := setEnvVar ("NODE_ENV") f.environment (JSVal.vstr ("development")) env1
  finishNoExit env2 (runPipeline w (servePipeline f))

/-- Pipeline of `g`/`generate`. -/
def generatePipeline (ty nm : String) (attrs : List String) : List Call :=
  [(("generate"), CallArgs.generateArgs ty nm attrs)]

/-- Action of `g`/`generate`. -/
def generateAction (w : World) (env : EnvMap) (ty nm : String)
    (attrs : List String) : ActionResult :=
  finishWithExit env (runPipeline w (generatePipeline ty nm attrs))

/-- Pipeline of `d`/`destroy`. -/
def destroyPipeline (ty nm : String) : List Call :=
  [(("destroy"), CallArgs.destroyArgs ty nm)]

/-- Action of `d`/`destroy`. -/
def destroyAction (w : World) (env : EnvMap) (ty nm : String) : ActionResult :=
  finishWithExit env (runPipeline w (destroyPipeline ty nm))

/-- Pipeline of `db:create`: optional build, then `dbcreate`. -/
def dbCreatePipeline (f : GatedFlags) : List Call :=
  gatedPipeline f.skipBuild (!f.useWeak) [(("dbcreate"), CallArgs.noArgs)]

/-- Action of `db:create`. -/
def dbCreateAction (w : World) (env : EnvMap) (f : GatedFlags) : ActionResult :=
  let env1 := setEnvVar ("NODE_ENV") f.environment (JSVal.vstr ("development")) env
  finishWithExit env1 (runPipeline w (dbCreatePipeline f))

/-- Pipeline of `db:drop`: optional build, then `dbdrop`. -/
def dbDropPipeline (f : GatedFlags) : List Call :=
  gatedPipeline f.skipBuild (!f.useWeak) [(("dbdrop"), CallArgs.noArgs)]

/-- Action of `db:drop`. -/
def dbDropAction (w : World) (env : EnvMap) (f : GatedFlags) : ActionResult :=
  let env1 := setEnvVar ("NODE_ENV") f.environment (JSVal.vstr ("development")) env
  finishWithExit env1 (runPipeline w (dbDropPipeline f))

/-- Pipeline of `db:reset`: optional build, then `dbdrop`, then `dbcreate`. -/
def dbResetPipeline (f : GatedFlags) : List Call :=
  gatedPipeline f.skipBuild (!f.useWeak)
    [(("dbdrop"), CallArgs.noArgs), (("dbcreate"), CallArgs.noArgs)]

/-- Action of `db:reset`. -/
def dbResetAction (w : World) (env : EnvMap) (f : GatedFlags) : ActionResult :=
  let env1 := setEnvVar ("NODE_ENV") f.environment (JSVal.vstr ("development")) env
  finishWithExit env1 (runPipeline w (dbResetPipeline f))

/-- Pipeline of `db:migrate`: optional build, then `dbmigrate`. -/
def dbMigratePipeline (f : GatedFlags) : List Call :=
  gatedPipeline f.skipBuild (!f.useWeak) [(("dbmigrate"), CallArgs.noArgs)]

/-- Action of `db:migrate`. -/
def dbMigrateAction (w : World) (env : EnvMap) (f : GatedFlags) : ActionResult :=
  let env1 := setEnvVar ("NODE_ENV") f.environment (JSVal.vstr ("development")) env
  finishWithExit env1 (runPipeline w (dbMigratePipeline f))

/-- Pipeline of `db:rollback`: optional build, then `dbrollback`. -/
def dbRollbackPipeline (f : GatedFlags) : List Call :=
  gatedPipeline f.skipBuild (!f.useWeak) [(("dbrollback"), CallArgs.noArgs)]

/-- Action of `db:rollback`. -/
def dbRollbackAction (w : World) (env : EnvMap) (f : GatedFlags) : ActionResult :=
  let env1 := setEnvVar ("NODE_ENV") f.environment (JSVal.vstr ("development")) env
  finishWithExit env1 (runPipeline w (dbRollbackPipeline f))

/-- Pipeline of `db:seed`: optional build, then `dbseed`. -/
def dbSeedPipeline (f : GatedFlags) : List Call :=
  gatedPipeline f.skipBuild (!f.useWeak) [(("dbseed"), CallArgs.noArgs)]

/-- Action of `db:seed`. -/
def dbSeedAction (w : World) (env : EnvMap) (f : GatedFlags) : ActionResult :=
  let env1 := setEnvVar ("NODE_ENV") f.environment (JSVal.vstr ("development")) env
  finishWithExit env1 (runPipeline w (dbSeedPipeline f))

/-- `os.EOL` (posix). -/
def EOL : String := "\n"

/-- `chalk.red`: ANSI color codes are display-only and outside the spec's
scope, so the text content is kept unchanged. -/
def red (s : String) : String := s

/-- `chalk.green`: same modelling as `red`. -/
def green (s : String) : String := s

/-- Everything `commandNotFound` prints after the (colored) command name:
the rest of the first `console.log` argument, the separating space the
console inserts between the two arguments, and the second argument. -/
def notFoundTail : String :=
  (" is not a valid command." ++ EOL ++ EOL)
    ++ " "
    ++ (" Use " ++ green ("lux --help") ++ " for a full list of commands." ++ EOL)

/-- The line `commandNotFound` prints: `console.log(a, b)` joins its two
arguments with a single space. -/
def commandNotFound (cmd : String) : String :=
  (EOL ++ "  ") ++ red cmd ++ notFoundTail

/-- Every name and alias registered on the commander program. -/
def knownNames : List String :=
  [("n"), ("new"), ("t"), ("test"), ("b"), ("build"), ("c"), ("console"),
   ("s"), ("serve"), ("g"), ("generate"), ("d"), ("destroy"),
   ("db:create"), ("db:drop"), ("db:reset"), ("db:migrate"),
   ("db:rollback"), ("db:seed")]

/-- Observable outcome of the `cli.on('*')` path. -/
structure UnknownOutcome where
  stdout : List String
  errorOutput : List String
  term : Termination
deriving DecidableEq

/-- The unknown-command path: print the notice to standard output; nothing
is written to the error stream and no `process.exit` call is made. -/
def dispatchUnknown (cmd : String) : UnknownOutcome :=
  { stdout := [commandNotFound cmd], errorOutput := [], term := Termination.running }

/-! The responder utility dataFor. -/

/-- The error value handed to `dataFor` (only its `message` is read). -/
structure ErrJS where
  message : String
deriving DecidableEq

/-- Characters of the literal pattern `[public]`. -/
def publicChars : List Char := "[public]".data

/-- The test `/\[public\]/gi.test(msg)`: case-insensitive substring search
for the literal `[public]` (ASCII folding, as in a non-unicode regex). -/
def containsPublic (s : String) : Bool :=
  charsContains (s.data.map Char.toLower) publicChars

/-- The replacement scan of `msg.replace(/\[public\]/gi, '')`: find
case-insensitive occurrences left to right, delete each, and continue
after the deleted occurrence. -/
def stripPublicAux : List Char → List Char
  | [] => []
  | c :: cs =>
    if ((c :: cs).take 8).map Char.toLower = publicChars then
      stripPublicAux ((c :: cs).drop 8)
    else
      c :: stripPublicAux cs
termination_by l => l.length
decreasing_by
  · simp [List.length_drop]
    omega
  · simp

/-- `msg.replace(/\[public\]/gi, '')` on strings. -/
def stripPublic (s : String) : String := String.mk (stripPublicAux s.data)

/-- The value `dataFor` returns: the empty string for non-error statuses,
otherwise a JSON:API document with one error object and the jsonapi
version stamp. -/
inductive DataForResult where
  | emptyString : DataForResult
  | document : String → Option String → Option String → String → DataForResult
deriving DecidableEq

/-- `dataFor(status, err)` with its external collaborators as parameters:
`V` is the imported jsonapi VERSION, `SC` the STATUS_CODES map, `isDev`
the value of `env.isDevelopment()`. -/
def dataFor (V : String) (SC : Nat → Option String) (isDev : Bool)
    (status : Nat) (err : Option ErrJS) : DataForResult :=
  if status < 400 || status > 599 then DataForResult.emptyString
  else
    let title := SC status
    let detail :=
      match err with
      | some e =>
        if isDev || containsPublic e.message then some (stripPublic e.message)
        else none
      | none => none
    DataForResult.document (toString status) title detail V

/-! Concrete worlds used by witnesses and counterexamples. -/

/-- A working directory that is not a lux application (no manifest), with
handlers that always succeed. -/
def noProjectWorld : World :=
  { cwd := "/srv/app", manifest := Manifest.missing
    behavior := fun _ _ => Except.ok JSVal.vundef }

/-- The tool's own test fixture directory (always eligible), with handlers
that always succeed. -/
def okWorld : World :=
  { cwd := "lux/test/test-app", manifest := Manifest.missing
    behavior := fun _ _ => Except.ok JSVal.vundef }

/-- Whether a gateway result is a rejection. -/
def stepFails (r : Except Err JSVal) : Bool :=
  match r with
  | Except.error _ => true
  | Except.ok _ => false

/-- Whether the build step of a pipeline fails in world `w`: either the
gateway rejects it (build is project-scoped and the directory is
ineligible) or the build handler itself rejects. -/
def buildStepFails (w : World) (strict : Bool) : Bool :=
  !inLuxProject w.cwd w.manifest
    || stepFails (w.behavior ("build") (CallArgs.buildArgs strict))

/-- The handler names of the five database actions. -/
def dbActionNames : List String :=
  [("dbcreate"), ("dbdrop"), ("dbmigrate"), ("dbrollback"), ("dbseed")]

/-- Whether a gateway call is a database action. -/
def isDbCall (c : Call) : Bool := dbActionNames.contains c.1

/-- Claim C1's property for one build-gated command, about the observable
result `r` of its action: with the skip-build flag no build step is ever
invoked; without it the build step is the first gateway call, and when the
build step fails none of the command's dependent actions (`depNames`) is
ever invoked. -/
def skipBuildGating (w : World) (useWeak skipBuild : Bool) (r : ActionResult)
    (depNames : List String) : Prop :=
  (skipBuild = true → ∀ args, ((("build") : String), args) ∉ r.execs)
  ∧ (skipBuild = false → r.execs.head? = some (buildCall (!useWeak)))
  ∧ (skipBuild = false → buildStepFails w (!useWeak) = true →
      ∀ n ∈ depNames, ∀ args, ((n : String), args) ∉ r.execs)

/-- Claim C2's property of the `.then(exit).catch(rescue)` tail: a
successful chain terminates with the final value's numeric code (0 for a
non-number) and prints nothing; a failed chain prints the error's stack to
the error stream and terminates with code 1. -/
def reportsExit (r : ActionResult) (res : Except Err JSVal) : Prop :=
  (∀ v, res = Except.ok v →
    r.term = Termination.exited (jsExitCode v) ∧ r.errorOutput = [])
  ∧ (∀ e, res = Except.error e →
    r.term = Termination.exited 1 ∧ r.errorOutput = [e.stack])

/-- The serve variant of `reportsExit`: success terminates nothing. -/
def reportsNoExit (r : ActionResult) (res : Except Err JSVal) : Prop :=
  (∀ v, res = Except.ok v →
    r.term = Termination.running ∧ r.errorOutput = [])
  ∧ (∀ e, res = Except.error e →
    r.term = Termination.exited 1 ∧ r.errorOutput = [e.stack])

/-- `serve --port 5000 --use-weak` as parsed options. -/
def servePort5000 : ServeFlags :=
  { hot := false, port := JSVal.vnum 5000, cluster := false
    environment := JSVal.vundef, useWeak := true, skipBuild := false }

/-- `serve` with no options as parsed by commander. -/
def serveDefaultFlags : ServeFlags :=
  { hot := false, port := JSVal.vundef, cluster := false
    environment := JSVal.vundef, useWeak := false, skipBuild := false }

/-- An eligible directory whose `dbdrop` handler rejects and whose other
handlers succeed. -/
def dropFailWorld : World :=
  { cwd := "lux/test/test-app", manifest := Manifest.missing
    behavior := fun n _ =>
      if n = ("dbdrop") then
        Except.error { message := "boom", stack := "Error: boom" }
      else Except.ok JSVal.vundef }

/-! Helper lemmas. -/

theorem charsContains_append_left (a : List Char) {s pat : List Char}
    (h : charsContains s pat = true) : charsContains (a ++ s) pat = true := by
  induction a with
  | nil => simpa using h
  | cons x xs ih => simp [charsContains, ih]

theorem strData_append (s t : String) : (s ++ t).data = s.data ++ t.data := rfl

theorem exec_execs (w : World) (c : Call) (t : Trace) :
    (exec w c t).1.execs = t.execs ++ [c] := by
  simp only [exec]
  split <;> rfl

theorem exec_reject (w : World) (c : Call) (t : Trace)
    (hn : needsProject c.1 = true)
    (he : inLuxProject w.cwd w.manifest = false) :
    exec w c t
      = ({ execs := t.execs ++ [c], runs := t.runs }, Except.error luxDirError) := by
  simp [exec, hn, he]

theorem exec_pass (w : World) (c : Call) (t : Trace)
    (hg : (needsProject c.1 && !inLuxProject w.cwd w.manifest) = false) :
    exec w c t
      = ({ execs := t.execs ++ [c], runs := t.runs ++ [c] },
         w.behavior c.1 c.2) := by
  simp [exec, hg]

theorem exec_pass_unscoped (w : World) (c : Call) (t : Trace)
    (hn : needsProject c.1 = false) :
    exec w c t
      = ({ execs := t.execs ++ [c], runs := t.runs ++ [c] },
         w.behavior c.1 c.2) :=
  exec_pass w c t (by simp [hn])

theorem exec_pass_eligible (w : World) (c : Call) (t : Trace)
    (he : inLuxProject w.cwd w.manifest = true) :
    exec w c t
      = ({ execs := t.execs ++ [c], runs := t.runs ++ [c] },
         w.behavior c.1 c.2) :=
  exec_pass w c t (by simp [he])

theorem runSeq_cons (w : World) (c : Call) (cs : List Call) (acc : JSVal)
    (t : Trace) :
    runSeq w (c :: cs) acc t
      = match exec w c t with
        | (t1, Except.ok v) => runSeq w cs v t1
        | (t1, Except.error e) => (t1, Except.error e) := rfl

theorem runSeq_cons_ok (w : World) (c : Call) (cs : List Call) (acc : JSVal)
    (t t1 : Trace) (v : JSVal) (h : exec w c t = (t1, Except.ok v)) :
    runSeq w (c :: cs) acc t = runSeq w cs v t1 := by
  rw [runSeq_cons, h]

theorem runSeq_cons_error (w : World) (c : Call) (cs : List Call)
    (acc : JSVal) (t t1 : Trace) (e : Err)
    (h : exec w c t = (t1, Except.error e)) :
    runSeq w (c :: cs) acc t = (t1, Except.error e) := by
  rw [runSeq_cons, h]

theorem runSeq_execs_mem (w : World) (cs : List Call) :
    ∀ (acc : JSVal) (t : Trace),
      ∃ l, (runSeq w cs acc t).1.execs = t.execs ++ l ∧ ∀ x ∈ l, x ∈ cs := by
  induction cs with
  | nil => exact fun acc t => ⟨[], by simp [runSeq], by simp⟩
  | cons c cs ih =>
    intro acc t
    have hx : (exec w c t).1.execs = t.execs ++ [c] := exec_execs w c t
    rcases hstep : exec w c t with ⟨t1, res⟩
    rw [hstep] at hx
    cases res with
    | ok v =>
      obtain ⟨l, hl, hmem⟩ := ih v t1
      rw [runSeq_cons_ok w c cs acc t t1 v hstep]
      refine ⟨c :: l, ?_, ?_⟩
      · rw [hl, hx, List.append_assoc]
        rfl
      · intro x hxm
        rcases List.mem_cons.mp hxm with rfl | hxl
        · exact List.mem_cons_self _ _
        · exact List.mem_cons_of_mem _ (hmem x hxl)
    | error e =>
      rw [runSeq_cons_error w c cs acc t t1 e hstep]
      refine ⟨[c], by simpa using hx, ?_⟩
      intro x hxm
      rcases List.mem_singleton.mp hxm with rfl
      exact List.mem_cons_self _ _

theorem runSeq_runs_take (w : World) (cs : List Call) :
    ∀ (acc : JSVal) (t : Trace),
      ∃ p, p <+: cs ∧ (runSeq w cs acc t).1.runs = t.runs ++ p := by
  induction cs with
  | nil => exact fun acc t => ⟨[], List.nil_prefix, by simp [runSeq]⟩
  | cons c cs ih =>
    intro acc t
    by_cases hg : (needsProject c.1 && !inLuxProject w.cwd w.manifest) = true
    · have hn : needsProject c.1 = true := by
        rcases Bool.and_eq_true_iff.mp hg with ⟨h1, _⟩
        exact h1
      have he : inLuxProject w.cwd w.manifest = false := by
        rcases Bool.and_eq_true_iff.mp hg with ⟨_, h2⟩
        simpa using h2
      rw [runSeq_cons_error w c cs acc t _ _ (exec_reject w c t hn he)]
      exact ⟨[], List.nil_prefix, by simp⟩
    · have hp := exec_pass w c t (by simpa using hg)
      rcases hb : w.behavior c.1 c.2 with e | v
      · rw [runSeq_cons_error w c cs acc t _ _ (hp.trans (by rw [hb]))]
        exact ⟨[c], ⟨cs, rfl⟩, by simp⟩
      · rw [runSeq_cons_ok w c cs acc t _ v (hp.trans (by rw [hb]))]
        obtain ⟨p, hpre, hr⟩ :=
          ih v { execs := t.execs ++ [c], runs := t.runs ++ [c] }
        refine ⟨c :: p, ?_, ?_⟩
        · obtain ⟨rest, hrest⟩ := hpre
          exact ⟨rest, by simp [hrest]⟩
        · rw [hr, List.append_assoc]
          rfl

theorem runPipeline_execs_mem (w : World) (p : List Call) (x : Call)
    (h : x ∈ (runPipeline w p).1.execs) : x ∈ p := by
  obtain ⟨l, hl, hmem⟩ := runSeq_execs_mem w p JSVal.vundef { execs := [], runs := [] }
  rw [runPipeline] at h
  rw [hl] at h
  exact hmem x (by simpa using h)

theorem runPipeline_runs_take (w : World) (p : List Call) :
    ∃ q, q <+: p ∧ (runPipeline w p).1.runs = q := by
  obtain ⟨q, hq, hr⟩ := runSeq_runs_take w p JSVal.vundef { execs := [], runs := [] }
  exact ⟨q, hq, by simpa using hr⟩

theorem runPipeline_execs_head (w : World) (c : Call) (cs : List Call) :
    (runPipeline w (c :: cs)).1.execs.head? = some c := by
  rw [runPipeline]
  have hx : (exec w c { execs := [], runs := [] }).1.execs = [c] := by
    simpa using exec_execs w c { execs := [], runs := [] }
  rcases hstep : exec w c { execs := [], runs := [] } with ⟨t1, res⟩
  rw [hstep] at hx
  cases res with
  | ok v =>
    rw [runSeq_cons_ok w c cs JSVal.vundef _ t1 v hstep]
    obtain ⟨l, hl, _⟩ := runSeq_execs_mem w cs v t1
    rw [hl, hx]
    rfl
  | error e =>
    rw [runSeq_cons_error w c cs JSVal.vundef _ t1 e hstep]
    rw [hx]
    rfl

theorem build_first_fails (w : World) (strict : Bool) (rest : List Call)
    (h : buildStepFails w strict = true) :
    ∃ e t1, runPipeline w (buildCall strict :: rest) = (t1, Except.error e)
      ∧ t1.execs = [buildCall strict] := by
  by_cases hl : inLuxProject w.cwd w.manifest
  · have hsf : stepFails (w.behavior ("build") (CallArgs.buildArgs strict)) = true := by
      simpa [buildStepFails, hl] using h
    rcases hb : w.behavior ("build") (CallArgs.buildArgs strict) with e | v
    · have hp := exec_pass_eligible w (buildCall strict)
        { execs := [], runs := [] } hl
      refine ⟨e, { execs := [buildCall strict], runs := [buildCall strict] }, ?_, rfl⟩
      exact runSeq_cons_error w _ rest JSVal.vundef _ _ e
        (hp.trans (by rw [show w.behavior (buildCall strict).1 (buildCall strict).2
          = Except.error e from hb]; rfl))
    · rw [hb] at hsf
      simp [stepFails] at hsf
  · have hrej := exec_reject w (buildCall strict) { execs := [], runs := [] }
      (by show needsProject ("build") = true; decide) (by simpa using hl)
    refine ⟨luxDirError, { execs := [buildCall strict], runs := [] }, ?_, rfl⟩
    exact runSeq_cons_error w _ rest JSVal.vundef _ _ _ hrej

theorem finishWithExit_execs (env : EnvMap) (r : Trace × Except Err JSVal) :
    (finishWithExit env r).execs = r.1.execs := by
  rcases r with ⟨t, res⟩
  cases res <;> rfl

theorem finishWithExit_runs (env : EnvMap) (r : Trace × Except Err JSVal) :
    (finishWithExit env r).runs = r.1.runs := by
  rcases r with ⟨t, res⟩
  cases res <;> rfl

theorem finishNoExit_execs (env : EnvMap) (r : Trace × Except Err JSVal) :
    (finishNoExit env r).execs = r.1.execs := by
  rcases r with ⟨t, res⟩
  cases res <;> rfl

theorem finishNoExit_runs (env : EnvMap) (r : Trace × Except Err JSVal) :
    (finishNoExit env r).runs = r.1.runs := by
  rcases r with ⟨t, res⟩
  cases res <;> rfl

theorem finishWithExit_reports (env : EnvMap) (r : Trace × Except Err JSVal) :
    reportsExit (finishWithExit env r) r.2 := by
  rcases r with ⟨t, res⟩
  cases res <;> constructor <;> intro x hx <;> simp_all [finishWithExit]

theorem finishNoExit_reports (env : EnvMap) (r : Trace × Except Err JSVal) :
    reportsNoExit (finishNoExit env r) r.2 := by
  rcases r with ⟨t, res⟩
  cases res <;> constructor <;> intro x hx <;> simp_all [finishNoExit]

theorem gatedPipeline_gating (w : World) (strict skipBuild : Bool)
    (rest : List Call) (hbuild : ∀ args, ((("build") : String), args) ∉ rest) :
    (skipBuild = true → ∀ args, ((("build") : String), args)
      ∉ (runPipeline w (gatedPipeline skipBuild strict rest)).1.execs)
    ∧ (skipBuild = false →
      (runPipeline w (gatedPipeline skipBuild strict rest)).1.execs.head?
        = some (buildCall strict))
    ∧ (skipBuild = false → buildStepFails w strict = true →
      ∀ x, x ≠ buildCall strict →
        x ∉ (runPipeline w (gatedPipeline skipBuild strict rest)).1.execs) := by
  refine ⟨fun hs args hmem => ?_, fun hs => ?_, fun hs hf x hx hmem => ?_⟩
  · simp [gatedPipeline, hs] at hmem
    exact hbuild args (runPipeline_execs_mem w rest _ hmem)
  · simp only [gatedPipeline, hs, List.singleton_append, Bool.false_eq_true,
      if_false]
    exact runPipeline_execs_head w (buildCall strict) rest
  · simp only [gatedPipeline, hs, List.singleton_append, Bool.false_eq_true,
      if_false] at hmem
    obtain ⟨e, t1, hrun, hex⟩ := build_first_fails w strict rest hf
    rw [hrun, hex] at hmem
    exact hx (List.mem_singleton.mp hmem)

theorem skipBuildGating_of (w : World) (useWeak skipBuild : Bool)
    (rest : List Call) (r : ActionResult) (depNames : List String)
    (hexecs : r.execs
      = (runPipeline w (gatedPipeline skipBuild (!useWeak) rest)).1.execs)
    (hbuild : ∀ args, ((("build") : String), args) ∉ rest)
    (hdep : (("build") : String) ∉ depNames) :
    skipBuildGating w useWeak skipBuild r depNames := by
  obtain ⟨h1, h2, h3⟩ := gatedPipeline_gating w (!useWeak) skipBuild rest hbuild
  refine ⟨fun hs args => ?_, fun hs => ?_, fun hs hf n hn args => ?_⟩
  · rw [hexecs]
    exact h1 hs args
  · rw [hexecs]
    exact h2 hs
  · rw [hexecs]
    apply h3 hs hf
    intro hxeq
    apply hdep
    have : n = ("build") := congrArg Prod.fst hxeq
    rw [this] at hn
    exact hn

/-! Claim theorems. -/

/-- Claim C3: the environment resolver.  A truthy explicit value is written
and becomes the effective value; with a falsy explicit value an existing
variable is left untouched (its value stays the effective one); otherwise
the default is written and becomes effective.  The function is total and
mutates the table at most once (the result is the input table or the input
with a single binding for `key` added). -/
theorem c3_env_resolver (key : String) (val dfl : JSVal) (e : EnvMap) :
    (jsTruthy val = true →
      setEnvVar key val dfl e = envSet e key (jsToString val)
      ∧ envLookup (setEnvVar key val dfl e) key = some (jsToString val))
    ∧ (jsTruthy val = false → envHas e key = true →
      setEnvVar key val dfl e = e
      ∧ envLookup (setEnvVar key val dfl e) key = envLookup e key)
    ∧ (jsTruthy val = false → envHas e key = false →
      setEnvVar key val dfl e = envSet e key (jsToString dfl)
      ∧ envLookup (setEnvVar key val dfl e) key = some (jsToString dfl))
    ∧ (setEnvVar key val dfl e = e ∨ ∃ v, setEnvVar key val dfl e = envSet e key v) := by
  refine ⟨fun h => ?_, fun h h2 => ?_, fun h h2 => ?_, ?_⟩
  · simp [setEnvVar, h, envLookup, envSet, List.lookup]
  · simp [setEnvVar, h, h2]
  · simp [setEnvVar, h, h2, envLookup, envSet, List.lookup]
  · by_cases h : jsTruthy val
    · exact Or.inr ⟨jsToString val, by simp [setEnvVar, h]⟩
    · by_cases h2 : envHas e key
      · exact Or.inl (by simp [setEnvVar, h, h2])
      · exact Or.inr ⟨jsToString dfl, by simp [setEnvVar, h, h2]⟩

/-- Witness for C3 at concrete inputs: an explicit value wins, and a falsy
explicit value leaves an existing variable untouched. -/
theorem c3_env_resolver_witness :
    setEnvVar ("NODE_ENV") (JSVal.vstr ("production")) (JSVal.vstr ("development")) []
      = envSet [] ("NODE_ENV") ("production")
    ∧ setEnvVar ("NODE_ENV") JSVal.vundef (JSVal.vstr ("development"))
        [(("NODE_ENV"), ("test"))]
      = [(("NODE_ENV"), ("test"))] :=
  ⟨((c3_env_resolver ("NODE_ENV") (JSVal.vstr ("production"))
      (JSVal.vstr ("development")) []).1 (by decide)).1,
   ((c3_env_resolver ("NODE_ENV") JSVal.vundef (JSVal.vstr ("development"))
      [(("NODE_ENV"), ("test"))]).2.1 (by decide) (by decide)).1⟩

/-- Claim C5: the gateway rejects a project-scoped command name in an
ineligible directory with the descriptive error, and the handler list of
the trace is untouched (the underlying handler is never called). -/
theorem c5_gateway_rejects_ineligible (w : World) (c : Call) (t : Trace)
    (hn : needsProject c.1 = true)
    (he : inLuxProject w.cwd w.manifest = false) :
    exec w c t
      = ({ execs := t.execs ++ [c], runs := t.runs }, Except.error luxDirError)
    ∧ luxDirError.message
      = "Directory does not contain a valid Lux application." := by
  constructor
  · simp [exec, hn, he]
  · rfl

/-- Witness for C5: `serve` outside a lux project is rejected without the
handler running. -/
theorem c5_gateway_rejects_ineligible_witness :
    exec noProjectWorld (("serve"), CallArgs.noArgs) { execs := [], runs := [] }
      = ({ execs := [(("serve"), CallArgs.noArgs)], runs := [] },
         Except.error luxDirError) :=
  (c5_gateway_rejects_ineligible noProjectWorld (("serve"), CallArgs.noArgs)
    { execs := [], runs := [] } (by decide) (by decide)).1

/-- Claim C6: the project validator.  A path containing the test-fixture
segment is always eligible; otherwise eligibility holds exactly when the
manifest parses and declares a truthy `lux-framework` dependency; a missing
or malformed manifest (or an absent dependencies object) yields `false`.
The validator is a total function, so no input makes it throw. -/
theorem c6_project_validator (cwd : String) (m : Manifest) :
    (strContains cwd luxTestAppSegment = true → inLuxProject cwd m = true)
    ∧ (strContains cwd luxTestAppSegment = false →
      (inLuxProject cwd m = true ↔
        ∃ deps v, m = Manifest.parsed (some deps)
          ∧ deps.lookup ("lux-framework") = some v ∧ v ≠ ""))
    ∧ (strContains cwd luxTestAppSegment = false →
      m = Manifest.missing ∨ m = Manifest.malformed →
      inLuxProject cwd m = false) := by
  refine ⟨fun h => ?_, fun h => ?_, fun h hm => ?_⟩
  · simp [inLuxProject, h]
  · constructor
    · intro he
      cases m with
      | missing => simp [inLuxProject, h] at he
      | malformed => simp [inLuxProject, h] at he
      | parsed deps =>
        cases deps with
        | none => simp [inLuxProject, h] at he
        | some d =>
          simp only [inLuxProject, h, if_false, Bool.if_false_left] at he
          cases hl : d.lookup ("lux-framework") with
          | none => rw [hl] at he; simp at he
          | some v =>
            rw [hl] at he
            refine ⟨d, v, rfl, hl, ?_⟩
            simpa using he
    · rintro ⟨deps, v, rfl, hl, hv⟩
      simp [inLuxProject, h, hl, hv]
  · rcases hm with rfl | rfl <;> simp [inLuxProject, h]

/-- Witness for C6 at concrete inputs: fixture path eligible; a manifest
with the dependency eligible; a missing manifest ineligible. -/
theorem c6_project_validator_witness :
    inLuxProject ("/home/me/lux/test/test-app") Manifest.missing = true
    ∧ inLuxProject ("/srv/app")
        (Manifest.parsed (some [(("lux-framework"), ("1.0.0"))])) = true
    ∧ inLuxProject ("/srv/app") Manifest.missing = false :=
  ⟨(c6_project_validator ("/home/me/lux/test/test-app") Manifest.missing).1
     (by decide),
   ((c6_project_validator ("/srv/app")
      (Manifest.parsed (some [(("lux-framework"), ("1.0.0"))]))).2.1
      (by decide)).mpr ⟨_, _, rfl, rfl, by decide⟩,
   (c6_project_validator ("/srv/app") Manifest.missing).2.2 (by decide)
     (Or.inl rfl)⟩

/-- Claim C4 (failing input): `db:create --skip-build` in a directory that
is not a lux application.  The validator reports the directory ineligible,
yet the `dbcreate` handler runs and the process exits 0 — because the
handler name `dbcreate` handed to `exec` matches neither the `db:.+` nor
any other alternative of the gating pattern, so skipping the build skips
the only validated step. -/
theorem c4_skip_build_bypasses_validator :
    inLuxProject noProjectWorld.cwd noProjectWorld.manifest = false
    ∧ needsProject ("dbcreate") = false
    ∧ (dbCreateAction noProjectWorld []
        { environment := JSVal.vundef, useWeak := false, skipBuild := true }).runs
      = [(("dbcreate"), CallArgs.noArgs)]
    ∧ (dbCreateAction noProjectWorld []
        { environment := JSVal.vundef, useWeak := false, skipBuild := true }).term
      = Termination.exited 0 :=
  ⟨by decide, by decide, rfl, rfl⟩

/-- Claim C9: an unrecognized command name is routed to `commandNotFound`,
whose notice (on standard output) contains "is not a valid command."; the
path writes nothing to the error stream and makes no `process.exit` call,
so it never sets a failing exit code by itself. -/
theorem c9_unknown_command (cmd : String)
    (_h : knownNames.contains cmd = false) :
    strContains (commandNotFound cmd) ("is not a valid command.") = true
    ∧ dispatchUnknown cmd
      = { stdout := [commandNotFound cmd], errorOutput := []
          term := Termination.running }
    ∧ (dispatchUnknown cmd).term ≠ Termination.exited 1 := by
  refine ⟨?_, rfl, by simp [dispatchUnknown]⟩
  have htail : charsContains notFoundTail.data
      ("is not a valid command.").data = true := by decide
  have hd : (commandNotFound cmd).data
      = (EOL ++ "  ").data ++ (cmd.data ++ notFoundTail.data) := by
    simp [commandNotFound, red, strData_append, List.append_assoc]
  unfold strContains
  rw [hd]
  exact charsContains_append_left _ (charsContains_append_left _ htail)

/-- Witness for C9 at the unknown name `frobnicate`. -/
theorem c9_unknown_command_witness :
    strContains (commandNotFound ("frobnicate")) ("is not a valid command.") = true
    ∧ (dispatchUnknown ("frobnicate")).term ≠ Termination.exited 1 :=
  ⟨(c9_unknown_command ("frobnicate") (by decide)).1,
   (c9_unknown_command ("frobnicate") (by decide)).2.2⟩

/-- Claim C10: outside development, errors without the (case-insensitive)
`[public]` marker never influence `dataFor`'s output, and whenever a detail
field is produced it is the error's message with every occurrence of the
marker removed. -/
theorem c10_data_for_noninterference
    (V : String) (SC : Nat → Option String) (status : Nat)
    (e1 e2 : ErrJS) (err : Option ErrJS) (isDev : Bool) :
    (containsPublic e1.message = false → containsPublic e2.message = false →
      dataFor V SC false status (some e1) = dataFor V SC false status (some e2))
    ∧ (∀ st ti d,
      dataFor V SC isDev status err = DataForResult.document st ti (some d) V →
      ∃ e, err = some e ∧ d = stripPublic e.message) := by
  constructor
  · intro h1 h2
    by_cases hs : (decide (status < 400) || decide (status > 599)) = true
    · simp [dataFor, hs]
    · simp [dataFor, hs, h1, h2]
  · intro st ti d hd
    by_cases hs : (decide (status < 400) || decide (status > 599)) = true
    · simp [dataFor, hs] at hd
    · cases err with
      | none => simp [dataFor, hs] at hd
      | some e =>
        refine ⟨e, rfl, ?_⟩
        by_cases hc : (isDev || containsPublic e.message) = true
        · simp [dataFor, hs, hc] at hd
          exact hd.2.2.symm
        · simp [dataFor, hs, hc] at hd

/-- Witness for C10: two unrelated secret messages produce the same body
for a 500 outside development. -/
theorem c10_data_for_noninterference_witness :
    dataFor ("1.0") (fun _ => none) false 500
        (some { message := "database password rejected" })
      = dataFor ("1.0") (fun _ => none) false 500
        (some { message := "disk quota exceeded" }) :=
  (c10_data_for_noninterference ("1.0") (fun _ => none) 500
    { message := "database password rejected" }
    { message := "disk quota exceeded" } none false).1 (by decide) (by decide)

/-- Claim C1: for every command with a `--skip-build` flag (console, serve,
and the six db commands), setting the flag means no build step is ever
invoked; leaving it unset means the build step is the first gateway call,
ahead of the command's dependent action, and a failing build step prevents
every dependent action from being invoked. -/
theorem c1_skip_build_gating (w : World) (env : EnvMap) (cf : GatedFlags)
    (sf : ServeFlags) (dc dd dr dm drb ds : GatedFlags) :
    skipBuildGating w cf.useWeak cf.skipBuild (consoleAction w env cf) [("repl")]
    ∧ skipBuildGating w sf.useWeak sf.skipBuild (serveAction w env sf) [("serve")]
    ∧ skipBuildGating w dc.useWeak dc.skipBuild (dbCreateAction w env dc)
      [("dbcreate")]
    ∧ skipBuildGating w dd.useWeak dd.skipBuild (dbDropAction w env dd)
      [("dbdrop")]
    ∧ skipBuildGating w dr.useWeak dr.skipBuild (dbResetAction w env dr)
      [("dbdrop"), ("dbcreate")]
    ∧ skipBuildGating w dm.useWeak dm.skipBuild (dbMigrateAction w env dm)
      [("dbmigrate")]
    ∧ skipBuildGating w drb.useWeak drb.skipBuild (dbRollbackAction w env drb)
      [("dbrollback")]
    ∧ skipBuildGating w ds.useWeak ds.skipBuild (dbSeedAction w env ds)
      [("dbseed")] := by
  refine ⟨?_, ?_, ?_, ?_, ?_, ?_, ?_, ?_⟩
  · exact skipBuildGating_of w cf.useWeak cf.skipBuild
      [(("repl"), CallArgs.noArgs)] _ _ (finishWithExit_execs _ _)
      (by intro args hmem; simp at hmem) (by decide)
  · exact skipBuildGating_of w sf.useWeak sf.skipBuild
      [(("serve"), CallArgs.serveArgs sf.hot sf.cluster (!sf.useWeak))] _ _
      (finishNoExit_execs _ _)
      (by intro args hmem; simp at hmem) (by decide)
  · exact skipBuildGating_of w dc.useWeak dc.skipBuild
      [(("dbcreate"), CallArgs.noArgs)] _ _ (finishWithExit_execs _ _)
      (by intro args hmem; simp at hmem) (by decide)
  · exact skipBuildGating_of w dd.useWeak dd.skipBuild
      [(("dbdrop"), CallArgs.noArgs)] _ _ (finishWithExit_execs _ _)
      (by intro args hmem; simp at hmem) (by decide)
  · exact skipBuildGating_of w dr.useWeak dr.skipBuild
      [(("dbdrop"), CallArgs.noArgs), (("dbcreate"), CallArgs.noArgs)] _ _
      (finishWithExit_execs _ _)
      (by intro args hmem; simp at hmem) (by decide)
  · exact skipBuildGating_of w dm.useWeak dm.skipBuild
      [(("dbmigrate"), CallArgs.noArgs)] _ _ (finishWithExit_execs _ _)
      (by intro args hmem; simp at hmem) (by decide)
  · exact skipBuildGating_of w drb.useWeak drb.skipBuild
      [(("dbrollback"), CallArgs.noArgs)] _ _ (finishWithExit_execs _ _)
      (by intro args hmem; simp at hmem) (by decide)
  · exact skipBuildGating_of w ds.useWeak ds.skipBuild
      [(("dbseed"), CallArgs.noArgs)] _ _ (finishWithExit_execs _ _)
      (by intro args hmem; simp at hmem) (by decide)

/-- Witness for C1: `console --skip-build` never makes a build gateway
call. -/
theorem c1_skip_build_gating_witness :
    ((("build") : String), CallArgs.noArgs)
      ∉ (consoleAction okWorld []
          { environment := JSVal.vundef, useWeak := false, skipBuild := true }).execs :=
  (c1_skip_build_gating okWorld []
    { environment := JSVal.vundef, useWeak := false, skipBuild := true }
    serveDefaultFlags
    { environment := JSVal.vundef, useWeak := false, skipBuild := false }
    { environment := JSVal.vundef, useWeak := false, skipBuild := false }
    { environment := JSVal.vundef, useWeak := false, skipBuild := false }
    { environment := JSVal.vundef, useWeak := false, skipBuild := false }
    { environment := JSVal.vundef, useWeak := false, skipBuild := false }
    { environment := JSVal.vundef, useWeak := false, skipBuild := false }).1.1
    rfl CallArgs.noArgs

/-- Claim C2 counterexample: the serve command's chain has no
`.then(exit)`, so a successful serve pipeline never terminates the
process — the claim's success clause fails for the registered command
`serve`. -/
theorem c2_serve_success_no_exit_counterexample :
    (runPipeline okWorld (servePipeline serveDefaultFlags)).2
      = Except.ok JSVal.vundef
    ∧ (serveAction okWorld [] serveDefaultFlags).term = Termination.running
    ∧ (serveAction okWorld [] serveDefaultFlags).term ≠ Termination.exited 0 :=
  ⟨rfl, rfl, by decide⟩

/-- Claim C2 (amended): for every registered command except serve, a
successful pipeline terminates the process with the numeric value of the
final step (0 for a non-number) and prints nothing, and any pipeline
failure prints the error's stack to the error stream and terminates with
code 1; serve behaves the same on failure but on success makes no exit
call at all.  Each action yields exactly one `Termination` value, so there
is one outcome per invocation. -/
theorem c2_exit_reporting (w : World) (env : EnvMap)
    (name database ty nm : String) (attrs : List String) (bf : BuildFlags)
    (cf dc dd dr dm drb ds : GatedFlags) (sf : ServeFlags) (n : Int) :
    reportsExit (newAction w env name database)
      (runPipeline w (newPipeline name database)).2
    ∧ reportsExit (testAction w env) (runPipeline w testPipeline).2
    ∧ reportsExit (buildAction w env bf) (runPipeline w (buildPipeline bf)).2
    ∧ reportsExit (consoleAction w env cf)
      (runPipeline w (consolePipeline cf)).2
    ∧ reportsExit (generateAction w env ty nm attrs)
      (runPipeline w (generatePipeline ty nm attrs)).2
    ∧ reportsExit (destroyAction w env ty nm)
      (runPipeline w (destroyPipeline ty nm)).2
    ∧ reportsExit (dbCreateAction w env dc)
      (runPipeline w (dbCreatePipeline dc)).2
    ∧ reportsExit (dbDropAction w env dd)
      (runPipeline w (dbDropPipeline dd)).2
    ∧ reportsExit (dbResetAction w env dr)
      (runPipeline w (dbResetPipeline dr)).2
    ∧ reportsExit (dbMigrateAction w env dm)
      (runPipeline w (dbMigratePipeline dm)).2
    ∧ reportsExit (dbRollbackAction w env drb)
      (runPipeline w (dbRollbackPipeline drb)).2
    ∧ reportsExit (dbSeedAction w env ds)
      (runPipeline w (dbSeedPipeline ds)).2
    ∧ reportsNoExit (serveAction w env sf)
      (runPipeline w (servePipeline sf)).2
    ∧ jsExitCode (JSVal.vnum n) = n
    ∧ jsExitCode JSVal.vundef = 0
    ∧ jsExitCode (JSVal.vstr name) = 0
    ∧ jsExitCode (JSVal.vbool true) = 0 :=
  ⟨finishWithExit_reports _ _, finishWithExit_reports _ _,
   finishWithExit_reports _ _, finishWithExit_reports _ _,
   finishWithExit_reports _ _, finishWithExit_reports _ _,
   finishWithExit_reports _ _, finishWithExit_reports _ _,
   finishWithExit_reports _ _, finishWithExit_reports _ _,
   finishWithExit_reports _ _, finishWithExit_reports _ _,
   finishNoExit_reports _ _, rfl, rfl, rfl, rfl⟩

/-- Witness for C2 at a concrete successful invocation of `new`. -/
theorem c2_exit_reporting_witness :
    (newAction okWorld [] ("app") ("sqlite")).term = Termination.exited 0
    ∧ (newAction okWorld [] ("app") ("sqlite")).errorOutput = [] :=
  ((c2_exit_reporting okWorld [] ("app") ("sqlite") ("model") ("user") []
      { environment := JSVal.vundef, useWeak := false }
      { environment := JSVal.vundef, useWeak := false, skipBuild := false }
      { environment := JSVal.vundef, useWeak := false, skipBuild := false }
      { environment := JSVal.vundef, useWeak := false, skipBuild := false }
      { environment := JSVal.vundef, useWeak := false, skipBuild := false }
      { environment := JSVal.vundef, useWeak := false, skipBuild := false }
      { environment := JSVal.vundef, useWeak := false, skipBuild := false }
      { environment := JSVal.vundef, useWeak := false, skipBuild := false }
      serveDefaultFlags 0).1).1 JSVal.vundef rfl

theorem isDbCall_build (args : CallArgs) :
    isDbCall ((("build") : String), args) = false := rfl

theorem isDbCall_dbdrop (args : CallArgs) :
    isDbCall ((("dbdrop") : String), args) = true := rfl

theorem isDbCall_dbcreate (args : CallArgs) :
    isDbCall ((("dbcreate") : String), args) = true := rfl

theorem dbResetPipeline_filter (f : GatedFlags) :
    (dbResetPipeline f).filter isDbCall
      = [(("dbdrop"), CallArgs.noArgs), (("dbcreate"), CallArgs.noArgs)] := by
  cases hsb : f.skipBuild <;>
    simp [dbResetPipeline, gatedPipeline, hsb, buildCall,
      isDbCall_build, isDbCall_dbdrop, isDbCall_dbcreate,
      List.filter_cons]

/-- Claim C7: the db:reset pipeline contains exactly two database actions,
drop then create, for every flag combination; in every run the database
actions actually executed are a prefix of [drop, create] (so create never
runs before drop); and when the drop handler rejects, no create gateway
call is ever made and the invocation terminates with exit code 1. -/
theorem c7_db_reset_order (w : World) (env : EnvMap) (f : GatedFlags) :
    (dbResetPipeline f).filter isDbCall
      = [(("dbdrop"), CallArgs.noArgs), (("dbcreate"), CallArgs.noArgs)]
    ∧ ((dbResetAction w env f).runs.filter isDbCall)
      <+: [(("dbdrop"), CallArgs.noArgs), (("dbcreate"), CallArgs.noArgs)]
    ∧ (∀ e, w.behavior ("dbdrop") CallArgs.noArgs = Except.error e →
      (∀ args, ((("dbcreate") : String), args) ∉ (dbResetAction w env f).execs)
      ∧ (dbResetAction w env f).term = Termination.exited 1) := by
  have hexecs : (dbResetAction w env f).execs
      = (runPipeline w (dbResetPipeline f)).1.execs := finishWithExit_execs _ _
  have hterm : ∀ (t1 : Trace) (e1 : Err),
      runPipeline w (dbResetPipeline f) = (t1, Except.error e1) →
      (dbResetAction w env f).term = Termination.exited 1 := by
    intro t1 e1 hr
    have hact : dbResetAction w env f = finishWithExit
        (setEnvVar ("NODE_ENV") f.environment (JSVal.vstr ("development")) env)
        (runPipeline w (dbResetPipeline f)) := rfl
    rw [hact, hr]
    rfl
  refine ⟨dbResetPipeline_filter f, ?_, ?_⟩
  · have hruns : (dbResetAction w env f).runs
        = (runPipeline w (dbResetPipeline f)).1.runs := finishWithExit_runs _ _
    rw [hruns]
    obtain ⟨q, hq, hr⟩ := runPipeline_runs_take w (dbResetPipeline f)
    rw [hr]
    have hfil := hq.filter isDbCall
    rw [dbResetPipeline_filter f] at hfil
    exact hfil
  · intro e he
    have hdropstep : ∀ t : Trace, exec w (("dbdrop"), CallArgs.noArgs) t
        = ({ execs := t.execs ++ [(("dbdrop"), CallArgs.noArgs)],
             runs := t.runs ++ [(("dbdrop"), CallArgs.noArgs)] },
           Except.error e) := by
      intro t
      rw [exec_pass_unscoped w _ t (by decide)]
      rw [show w.behavior (("dbdrop"), CallArgs.noArgs).1
        (("dbdrop"), CallArgs.noArgs).2 = Except.error e from he]
    cases hsb : f.skipBuild with
    | true =>
      have hp : dbResetPipeline f
          = [(("dbdrop"), CallArgs.noArgs), (("dbcreate"), CallArgs.noArgs)] := by
        simp [dbResetPipeline, gatedPipeline, hsb]
      have hrun : runPipeline w (dbResetPipeline f)
          = ({ execs := [(("dbdrop"), CallArgs.noArgs)],
               runs := [(("dbdrop"), CallArgs.noArgs)] }, Except.error e) := by
        rw [hp, runPipeline]
        exact runSeq_cons_error w _ _ _ _ _ _
          (hdropstep { execs := [], runs := [] })
      constructor
      · intro args hmem
        rw [hexecs, hrun] at hmem
        simp at hmem
      · exact hterm _ _ hrun
    | false =>
      have hp : dbResetPipeline f = buildCall (!f.useWeak)
          :: [(("dbdrop"), CallArgs.noArgs), (("dbcreate"), CallArgs.noArgs)] := by
        simp [dbResetPipeline, gatedPipeline, hsb]
      by_cases hbf : buildStepFails w (!f.useWeak) = true
      · obtain ⟨e1, t1, hrun, hex⟩ := build_first_fails w (!f.useWeak)
          [(("dbdrop"), CallArgs.noArgs), (("dbcreate"), CallArgs.noArgs)] hbf
        have hrun2 : runPipeline w (dbResetPipeline f) = (t1, Except.error e1) := by
          rw [hp]
          exact hrun
        constructor
        · intro args hmem
          rw [hexecs, hrun2, hex] at hmem
          simp [buildCall] at hmem
        · exact hterm _ _ hrun2
      · have hl : inLuxProject w.cwd w.manifest = true := by
          cases hic : inLuxProject w.cwd w.manifest
          · exact absurd (by simp [buildStepFails, hic]) hbf
          · rfl
        obtain ⟨v, hbok⟩ : ∃ v, w.behavior ("build")
            (CallArgs.buildArgs (!f.useWeak)) = Except.ok v := by
          cases hb : w.behavior ("build") (CallArgs.buildArgs (!f.useWeak)) with
          | error e2 => exact absurd (by simp [buildStepFails, stepFails, hb]) hbf
          | ok v => exact ⟨v, rfl⟩
        have hbstep : exec w (buildCall (!f.useWeak)) { execs := [], runs := [] }
            = ({ execs := [buildCall (!f.useWeak)],
                 runs := [buildCall (!f.useWeak)] }, Except.ok v) := by
          rw [exec_pass_eligible w _ _ hl]
          rw [show w.behavior (buildCall (!f.useWeak)).1
            (buildCall (!f.useWeak)).2 = Except.ok v from hbok]
          rfl
        have hrun : runPipeline w (dbResetPipeline f)
            = ({ execs := [buildCall (!f.useWeak), (("dbdrop"), CallArgs.noArgs)],
                 runs := [buildCall (!f.useWeak), (("dbdrop"), CallArgs.noArgs)] },
               Except.error e) := by
          rw [hp, runPipeline]
          rw [runSeq_cons_ok w _ _ _ _ _ v hbstep]
          exact runSeq_cons_error w _ _ _ _ _ _
            (hdropstep { execs := [buildCall (!f.useWeak)],
                         runs := [buildCall (!f.useWeak)] })
        constructor
        · intro args hmem
          rw [hexecs, hrun] at hmem
          simp [buildCall] at hmem
        · exact hterm _ _ hrun

/-- Witness for C7: with a rejecting drop handler, db:reset never makes a
create gateway call. -/
theorem c7_db_reset_order_witness :
    ((("dbcreate") : String), CallArgs.noArgs)
      ∉ (dbResetAction dropFailWorld []
          { environment := JSVal.vundef, useWeak := false, skipBuild := false }).execs :=
  ((c7_db_reset_order dropFailWorld []
      { environment := JSVal.vundef, useWeak := false, skipBuild := false }).2.2
    { message := "boom", stack := "Error: boom" } rfl).1 CallArgs.noArgs

/-- Claim C8: every build step carries the strict flag `!useWeak`, the
serve target carries `{hot, cluster, useStrict = !useWeak}`, and the
concrete invocation `serve --port 5000 --use-weak` resolves PORT to 5000
and hands `{hot := false, cluster := false, useStrict := false}` to the
serve action. -/
theorem c8_use_weak_strict (bf : BuildFlags) (cf : GatedFlags) (sf : ServeFlags)
    (dc dd dr dm drb ds : GatedFlags) :
    (∀ args, ((("build") : String), args) ∈ buildPipeline bf →
      args = CallArgs.buildArgs (!bf.useWeak))
    ∧ (∀ args, ((("build") : String), args) ∈ consolePipeline cf →
      args = CallArgs.buildArgs (!cf.useWeak))
    ∧ (∀ args, ((("build") : String), args) ∈ servePipeline sf →
      args = CallArgs.buildArgs (!sf.useWeak))
    ∧ (∀ args, ((("serve") : String), args) ∈ servePipeline sf →
      args = CallArgs.serveArgs sf.hot sf.cluster (!sf.useWeak))
    ∧ (∀ args, ((("build") : String), args) ∈ dbCreatePipeline dc →
      args = CallArgs.buildArgs (!dc.useWeak))
    ∧ (∀ args, ((("build") : String), args) ∈ dbDropPipeline dd →
      args = CallArgs.buildArgs (!dd.useWeak))
    ∧ (∀ args, ((("build") : String), args) ∈ dbResetPipeline dr →
      args = CallArgs.buildArgs (!dr.useWeak))
    ∧ (∀ args, ((("build") : String), args) ∈ dbMigratePipeline dm →
      args = CallArgs.buildArgs (!dm.useWeak))
    ∧ (∀ args, ((("build") : String), args) ∈ dbRollbackPipeline drb →
      args = CallArgs.buildArgs (!drb.useWeak))
    ∧ (∀ args, ((("build") : String), args) ∈ dbSeedPipeline ds →
      args = CallArgs.buildArgs (!ds.useWeak))
    ∧ envLookup (serveAction okWorld [] servePort5000).env ("PORT")
      = some ("5000")
    ∧ (serveAction okWorld [] servePort5000).runs
      = [buildCall false, (("serve"), CallArgs.serveArgs false false false)] := by
  refine ⟨?_, ?_, ?_, ?_, ?_, ?_, ?_, ?_, ?_, ?_, rfl, rfl⟩
  · intro args hmem
    simp [buildPipeline, buildCall] at hmem
    exact hmem
  · intro args hmem
    cases hsb : cf.skipBuild <;>
      simp [consolePipeline, gatedPipeline, buildCall, hsb] at hmem <;>
      exact hmem
  · intro args hmem
    cases hsb : sf.skipBuild <;>
      simp [servePipeline, gatedPipeline, buildCall, hsb] at hmem <;>
      exact hmem
  · intro args hmem
    cases hsb : sf.skipBuild <;>
      simp [servePipeline, gatedPipeline, buildCall, hsb] at hmem <;>
      exact hmem
  · intro args hmem
    cases hsb : dc.skipBuild <;>
      simp [dbCreatePipeline, gatedPipeline, buildCall, hsb] at hmem <;>
      exact hmem
  · intro args hmem
    cases hsb : dd.skipBuild <;>
      simp [dbDropPipeline, gatedPipeline, buildCall, hsb] at hmem <;>
      exact hmem
  · intro args hmem
    cases hsb : dr.skipBuild <;>
      simp [dbResetPipeline, gatedPipeline, buildCall, hsb] at hmem <;>
      exact hmem
  · intro args hmem
    cases hsb : dm.skipBuild <;>
      simp [dbMigratePipeline, gatedPipeline, buildCall, hsb] at hmem <;>
      exact hmem
  · intro args hmem
    cases hsb : drb.skipBuild <;>
      simp [dbRollbackPipeline, gatedPipeline, buildCall, hsb] at hmem <;>
      exact hmem
  · intro args hmem
    cases hsb : ds.skipBuild <;>
      simp [dbSeedPipeline, gatedPipeline, buildCall, hsb] at hmem <;>
      exact hmem

/-- Witness for C8: the build call of `serve --port 5000 --use-weak`
carries the strict flag false (= the negation of use-weak). -/
theorem c8_use_weak_strict_witness :
    CallArgs.buildArgs false = CallArgs.buildArgs (!servePort5000.useWeak) :=
  (c8_use_weak_strict { environment := JSVal.vundef, useWeak := false }
    { environment := JSVal.vundef, useWeak := false, skipBuild := false }
    servePort5000
    { environment := JSVal.vundef, useWeak := false, skipBuild := false }
    { environment := JSVal.vundef, useWeak := false, skipBuild := false }
    { environment := JSVal.vundef, useWeak := false, skipBuild := false }
    { environment := JSVal.vundef, useWeak := false, skipBuild := false }
    { environment := JSVal.vundef, useWeak := false, skipBuild := false }
    { environment := JSVal.vundef, useWeak := false, skipBuild := false }).2.2.1
    (CallArgs.buildArgs false) (by decide)

end Lux
